import Mathlib

/-!
Verification of `jina/logging/base.py`: a shallow embedding of the log-record
data model, the four formatters (`ColorFormatter`, `PlainFormatter`,
`JsonFormatter`, `ProfileFormatter`), the `EventHandler` gate, the `NTLogger`
fallback logger, and the `get_logger` assembly function, together with
theorems settling the frozen claims about that module.

Python mutable state is made explicit: a log record's message is either a
string or a reference (address) into a store of dictionaries, so that the
aliasing created by `copy.copy` (a shallow copy) is represented faithfully.
-/

namespace JinaLog

/-! ## Python-level primitives -/

/-- A Python exception, as far as this module raises them. -/
inductive PyError where
  | typeError (msg : String)
  | valueError (msg : String)
deriving DecidableEq, Repr

/-- A JSON-serialisable Python value: the record attributes this module ever
puts into a dict are strings and numbers. -/
inductive JVal where
  | str (s : String)
  | num (n : Int)
deriving DecidableEq, Repr

/-- A Python `dict` with string keys, in insertion order (keys unique by
construction through `dictSet`). -/
abbrev Dict := List (String × JVal)

/-- A heap of dict objects; a record whose message is a mapping holds an
address into this store. -/
abbrev Store := List Dict

/-- Read the dict object at an address (total: a dangling address reads as the
empty dict; real Python references are always valid). -/
def storeGet (st : Store) (a : Nat) : Dict := st.getD a []

/-- Overwrite the dict object at an address. -/
def storeSet (st : Store) (a : Nat) (d : Dict) : Store := st.set a d

/-- Python `d[k] = v`: overwrite in place if the key exists, else append. -/
def dictSet (d : Dict) (k : String) (v : JVal) : Dict :=
  if d.any (fun p => p.1 == k) then d.map (fun p => if p.1 = k then (k, v) else p)
  else d ++ [(k, v)]

/-- Python `d.update(kvs)`: set each key-value pair in order. -/
def dictUpdate (d : Dict) (kvs : Dict) : Dict :=
  kvs.foldl (fun acc p => dictSet acc p.1 p.2) d

/-- Executable lexicographic strict order on character lists (the order
Python compares strings by, code point by code point). -/
def listLt : List Char → List Char → Bool
  | _, [] => false
  | [], _ :: _ => true
  | a :: as, b :: bs => if a < b then true else if b < a then false else listLt as bs

/-- Executable string comparison: `s ≤ t` in the lexicographic order. -/
def strLE (s t : String) : Bool := !(listLt t.toList s.toList)

theorem listLt_iff : (a b : List Char) → (listLt a b = true ↔ a < b)
  | [], [] => by
    constructor
    · intro h
      simp [listLt] at h
    · intro h
      cases h
  | [], c :: cs => by
    constructor
    · intro _
      exact List.Lex.nil
    · intro _
      rfl
  | x :: xs, [] => by
    constructor
    · intro h
      simp [listLt] at h
    · intro h
      cases h
  | x :: xs, y :: ys => by
    constructor
    · intro h
      by_cases hxy : x < y
      · exact List.Lex.rel hxy
      · by_cases hyx : y < x
        · simp [listLt, hxy, hyx] at h
        · have hxey : x = y := le_antisymm (le_of_not_lt hyx) (le_of_not_lt hxy)
          subst hxey
          simp [listLt, hxy, hyx] at h
          exact List.Lex.cons ((listLt_iff xs ys).mp h)
    · intro h
      cases h with
      | rel hr => simp [listLt, hr]
      | cons htail =>
        simp [listLt, lt_irrefl]
        exact (listLt_iff xs ys).mpr htail

/-- The executable comparison agrees with Mathlib's order on `String`. -/
theorem strLE_iff (s t : String) : strLE s t = true ↔ s ≤ t := by
  have h1 : (s ≤ t) = ¬ (t < s) := rfl
  rw [h1, String.lt_iff_toList_lt]
  unfold strLE
  rw [Bool.not_eq_true', ← Bool.not_eq_true, listLt_iff]

/-- Key order on dict entries, used by `json.dumps(..., sort_keys=True)`. -/
def keyLE (p q : String × JVal) : Prop := strLE p.1 q.1 = true

instance : DecidableRel keyLE := fun p q => inferInstanceAs (Decidable (strLE p.1 q.1 = true))

instance : IsTotal (String × JVal) keyLE :=
  ⟨fun a b => by
    rcases le_total a.1 b.1 with h | h
    · exact Or.inl ((strLE_iff a.1 b.1).mpr h)
    · exact Or.inr ((strLE_iff b.1 a.1).mpr h)⟩

instance : IsTrans (String × JVal) keyLE :=
  ⟨fun a b c h h2 =>
    (strLE_iff a.1 c.1).mpr (le_trans ((strLE_iff a.1 b.1).mp h) ((strLE_iff b.1 c.1).mp h2))⟩

/-- `json.dumps(d, sort_keys=True)` emits the entries of `d` sorted by key. -/
def sortByKey (d : Dict) : Dict := List.insertionSort keyLE d

/-- A single quote character, used by Python `repr` of strings. -/
def sq : String := String.singleton (Char.ofNat 39)

/-- Python `repr` of a dict value (simplified: no escaping inside strings). -/
def JVal.pyRepr : JVal → String
  | .str s => sq ++ s ++ sq
  | .num n => toString n

/-- Python `str` of a dict (simplified `repr`-style rendering). -/
def pyDictRepr (d : Dict) : String :=
  "\x7b" ++ String.intercalate ", " (d.map (fun p => sq ++ p.1 ++ sq ++ ": " ++ p.2.pyRepr)) ++ "\x7d"

/-- JSON rendering of a value (simplified: no escaping inside strings). -/
def JVal.jsonRepr : JVal → String
  | .str s => "\"" ++ s ++ "\""
  | .num n => toString n

/-- Serialise an (already key-sorted) dict the way `json.dumps` prints it. -/
def jsonSerialize (d : Dict) : String :=
  "\x7b" ++ String.intercalate ", " (d.map (fun p => "\"" ++ p.1 ++ "\": " ++ p.2.jsonRepr)) ++ "\x7d"

/-! ## ANSI CSI stripping

`re.sub(u'\u001b\[.*?[@-~]', '', s)` appears verbatim in `PlainFormatter`,
`JsonFormatter` and `NTLogger._planify`.  The pattern matches an ESC, a `[`,
then a shortest run of non-newline characters up to and including the first
byte in the range `@`..`~`; `re.sub` scans left to right and removes each
leftmost match. -/

/-- The ESC character (`\u001b`). -/
def escChar : Char := Char.ofNat 27

/-- The ESC character as a string. -/
def escStr : String := String.singleton escChar

/-- Is `c` a CSI final byte, i.e. in the range `@`..`~` of the regex class? -/
def isCsiFinal (c : Char) : Bool := Char.ofNat 64 ≤ c && c ≤ Char.ofNat 126

/-- Scan the characters after `ESC [` for the end of the non-greedy match
`.*?[@-~]`: returns the suffix after the first final byte, or `none` when a
newline or the end of input is reached first (then the regex does not match
at this position, since `.` does not match a newline). -/
def csiScan : List Char → Option (List Char)
  | [] => none
  | c :: rest =>
    if isCsiFinal c then some rest
    else if c = Char.ofNat 10 then none
    else csiScan rest

/-- Fuel-indexed worker for the substitution; the fuel is an upper bound on
the number of characters left, so it never runs out when started with the
length of the input. -/
def stripAnsiAux : Nat → List Char → List Char
  | 0, l => l
  | _ + 1, [] => []
  | n + 1, c :: rest =>
    if c = escChar then
      match rest with
      | [] => [c]
      | b :: rest2 =>
        if b = Char.ofNat 91 then
          match csiScan rest2 with
          | some r => stripAnsiAux n r
          | none => c :: stripAnsiAux n (b :: rest2)
        else c :: stripAnsiAux n (b :: rest2)
    else c :: stripAnsiAux n rest

/-- `re.sub(u'\u001b\[.*?[@-~]', '', s)`: remove every leftmost-shortest ANSI
CSI match from `s`. -/
def stripAnsi (s : String) : String :=
  String.mk (stripAnsiAux s.toList.length s.toList)

/-! ## LogVerbosity -/

/-- Modelled from the spec: `LogVerbosity` lives in `jina/enums.py`, which is
not among the sources; the spec fixes it as an ordered enumeration with
DEBUG < INFO < WARNING < ERROR < CRITICAL whose `from_string` parses a
case-sensitive level name and fails on any other string.  Numeric values
follow the Python logging convention (10..50); only their order matters. -/
inductive LogVerbosity where
  | DEBUG
  | INFO
  | WARNING
  | ERROR
  | CRITICAL
deriving DecidableEq, Repr

/-- The numeric value of a verbosity level (`.value` in Python). -/
def LogVerbosity.toVal : LogVerbosity → Nat
  | .DEBUG => 10
  | .INFO => 20
  | .WARNING => 30
  | .ERROR => 40
  | .CRITICAL => 50

/-- Modelled from the spec: `from_string` resolves a case-sensitive level
name; an unrecognised name is a configuration error. -/
def LogVerbosity.from_string (s : String) : Except PyError LogVerbosity :=
  if s = "DEBUG" then .ok .DEBUG
  else if s = "INFO" then .ok .INFO
  else if s = "WARNING" then .ok .WARNING
  else if s = "ERROR" then .ok .ERROR
  else if s = "CRITICAL" then .ok .CRITICAL
  else .error (.valueError s)

/-! ## Log records -/

/-- A log record's message: a string, or a reference to a dict object in the
store (the structured payload used with the profile formatter). -/
inductive PyMsg where
  | ofStr (s : String)
  | ofDict (addr : Nat)
deriving DecidableEq, Repr

/-- A log record, with the attributes this module reads. -/
structure LogRecord where
  name : String
  msg : PyMsg
  levelname : String
  levelno : Nat
  pathname : String
  filename : String
  module : String
  lineno : Int
  funcName : String
  created : Int
  process : Int
  thread : Int
deriving DecidableEq, Repr

/-- Python `str()` of a record message. -/
def pyStr (st : Store) : PyMsg → String
  | .ofStr s => s
  | .ofDict a => pyDictRepr (storeGet st a)

/-- A rendering template: models the host `logging.Formatter` `%`-style
interpolation that `super().format(cr)` performs on the (transformed) record;
the template string handed to the formatter at construction determines this
function.  It may read dicts through the store, hence the `Store` argument. -/
abbrev Tmpl := Store → LogRecord → String

/-! ## Formatters

Each `format` receives the heap of dict objects alongside the record.  The
source takes `cr = copy(record)` — a shallow copy — and transforms `cr`;
rebinding `cr.msg` (Color, Plain, Json) touches neither the original record
nor the store, so those formatters return the store unchanged, while
`ProfileFormatter` calls `cr.msg.update(...)`, mutating the dict object that
`cr.msg` still shares with `record.msg`, so it returns an updated store. -/

/-- Modelled from the spec: `colored` lives in `jina/helper.py`, which is not
among the sources; the spec says it wraps the message in the ANSI escape
sequence of the given foreground/background pair. -/
def colored (text : String) (color : String) (on_color : Option String) : String :=
  let fg : Nat :=
    if color = "white" then 37 else if color = "yellow" then 33 else 30
  let pre :=
    match on_color with
    | none => escStr ++ "[" ++ toString fg ++ "m"
    | some bg =>
      let bgc : Nat :=
        if bg = "on_grey" then 40 else if bg = "on_red" then 41
        else if bg = "on_green" then 42 else 40
      escStr ++ "[" ++ toString fg ++ "m" ++ escStr ++ "[" ++ toString bgc ++ "m"
  pre ++ text ++ escStr ++ "[0m"

/-- `ColorFormatter.MAPPING.get(levelname, MAPPING['INFO'])`: the level-name
to (color, on_color) table, defaulting to the INFO entry. -/
def ColorFormatter.MAPPING (levelname : String) : String × Option String :=
  if levelname = "DEBUG" then ("white", none)
  else if levelname = "INFO" then ("white", none)
  else if levelname = "WARNING" then ("yellow", some "on_grey")
  else if levelname = "ERROR" then ("white", some "on_red")
  else if levelname = "CRITICAL" then ("white", some "on_green")
  else ("white", none)

/-- `ColorFormatter.format`: copy the record, wrap its message in the colour
escape for its level name, and hand the copy to the template. -/
def ColorFormatter.format (tmpl : Tmpl) (st : Store) (record : LogRecord) : String × Store :=
  let seq := ColorFormatter.MAPPING record.levelname
  let cr := { record with msg := .ofStr (colored (pyStr st record.msg) seq.1 seq.2) }
  (tmpl st cr, st)

/-- `PlainFormatter.format`: copy the record; when the message is a string,
strip ANSI CSI sequences from it; then hand the copy to the template. -/
def PlainFormatter.format (tmpl : Tmpl) (st : Store) (record : LogRecord) : String × Store :=
  let cr :=
    match record.msg with
    | .ofStr s => { record with msg := .ofStr (stripAnsi s) }
    | .ofDict _ => record
  (tmpl st cr, st)

/-- `JsonFormatter.KEYS`, in the textual order of the source. -/
def JsonFormatter.KEYS : List String :=
  ["created", "filename", "funcName", "levelname", "lineno", "msg",
   "module", "name", "pathname", "process", "thread"]

/-- The `\x7bk: getattr(cr, k) for k in self.KEYS\x7d` comprehension, on the copy
whose message has been coerced to a string and ANSI-stripped. -/
def JsonFormatter.rawEntries (st : Store) (record : LogRecord) : Dict :=
  let m := stripAnsi (pyStr st record.msg)
  [("created", .num record.created),
   ("filename", .str record.filename),
   ("funcName", .str record.funcName),
   ("levelname", .str record.levelname),
   ("lineno", .num record.lineno),
   ("msg", .str m),
   ("module", .str record.module),
   ("name", .str record.name),
   ("pathname", .str record.pathname),
   ("process", .num record.process),
   ("thread", .num record.thread)]

/-- The JSON object `JsonFormatter.format` serialises: the fixed attribute
subset, with keys sorted by `json.dumps(..., sort_keys=True)`. -/
def JsonFormatter.entries (st : Store) (record : LogRecord) : Dict :=
  sortByKey (JsonFormatter.rawEntries st record)

/-- `JsonFormatter.format`: serialise the fixed attribute subset of the copy
as JSON with sorted keys; the template is ignored and the store untouched. -/
def JsonFormatter.format (st : Store) (record : LogRecord) : String × Store :=
  (jsonSerialize (JsonFormatter.entries st record), st)

/-- The `\x7bk: getattr(cr, k) ...\x7d` dict `ProfileFormatter.format` merges into
the message mapping, in the textual order of the source. -/
def ProfileFormatter.profileAttrs (record : LogRecord) : Dict :=
  [("created", .num record.created),
   ("module", .str record.module),
   ("name", .str record.name),
   ("pathname", .str record.pathname),
   ("process", .num record.process),
   ("thread", .num record.thread)]

/-- `ProfileFormatter.format`, up to serialisation: `cr = copy(record)` is a
shallow copy, so when the message is a dict, `cr.msg.update(...)` and
`cr.msg['memory'] = used_memory(unit=1)` mutate the dict object shared with
the original record (the returned store reflects that); the result is the
entry list of `json.dumps(cr.msg, sort_keys=True)`.  When the message is not
a dict, a `TypeError` is raised.  `used_memory` lives in
`jina/logging/profile.py`, which is not among the sources; modelled from the
spec as an explicit `mem` sample passed by the environment. -/
def ProfileFormatter.run (st : Store) (record : LogRecord) (mem : Int) :
    Except PyError (Dict × Store) :=
  match record.msg with
  | .ofDict a =>
    let d := dictUpdate (storeGet st a) (ProfileFormatter.profileAttrs record)
    let d := dictSet d "memory" (.num mem)
    .ok (sortByKey d, storeSet st a d)
  | .ofStr _ => .error (.typeError "profile logger only accepts dict")

/-- `ProfileFormatter.format`: the serialised form of `ProfileFormatter.run`. -/
def ProfileFormatter.format (st : Store) (record : LogRecord) (mem : Int) :
    Except PyError (String × Store) :=
  (ProfileFormatter.run st record mem).map (fun p => (jsonSerialize p.1, p.2))

/-! ## EventHandler -/

/-- The cross-thread event object: a settable record slot and a flag. -/
structure EventObj where
  record : Option String
  isSet : Bool
deriving DecidableEq, Repr

/-- `EventHandler`: a handler level plus the wrapped event object. -/
structure EventHandler where
  level : Nat
  event : EventObj
deriving DecidableEq, Repr

/-- `EventHandler.emit`: when the record's level reaches the handler's level,
store the formatted record in the event slot and set the flag. -/
def EventHandler.emit (self : EventHandler) (fmt : LogRecord → String) (record : LogRecord) :
    EventHandler :=
  if record.levelno ≥ self.level then
    { self with event := { record := some (fmt record), isSet := true } }
  else self

/-! ## NTLogger -/

/-- The Windows-compatibility logger: a context string (ANSI-stripped at
construction) and a verbosity threshold. -/
structure NTLogger where
  context : String
  log_level : LogVerbosity
deriving DecidableEq, Repr

/-- `NTLogger._planify`: strip ANSI CSI sequences. -/
def NTLogger.planify (msg : String) : String := stripAnsi msg

/-- `NTLogger.__init__`: strip ANSI from the context, store the threshold. -/
def NTLogger.make (context : String) (log_level : LogVerbosity) : NTLogger :=
  { context := NTLogger.planify context, log_level := log_level }

/-- `NTLogger.info`: the string written to stdout, or `none` when the gate
`self.log_level <= LogVerbosity.INFO` rejects. -/
def NTLogger.info (self : NTLogger) (msg : String) : Option String :=
  if self.log_level.toVal ≤ LogVerbosity.INFO.toVal then
    some ("I:" ++ self.context ++ ":" ++ NTLogger.planify msg)
  else none

/-- `NTLogger.critical`. -/
def NTLogger.critical (self : NTLogger) (msg : String) : Option String :=
  if self.log_level.toVal ≤ LogVerbosity.CRITICAL.toVal then
    some ("C:" ++ self.context ++ ":" ++ NTLogger.planify msg)
  else none

/-- `NTLogger.debug`. -/
def NTLogger.debug (self : NTLogger) (msg : String) : Option String :=
  if self.log_level.toVal ≤ LogVerbosity.DEBUG.toVal then
    some ("D:" ++ self.context ++ ":" ++ NTLogger.planify msg)
  else none

/-- `NTLogger.error`. -/
def NTLogger.error (self : NTLogger) (msg : String) : Option String :=
  if self.log_level.toVal ≤ LogVerbosity.ERROR.toVal then
    some ("E:" ++ self.context ++ ":" ++ NTLogger.planify msg)
  else none

/-- `NTLogger.warning`. -/
def NTLogger.warning (self : NTLogger) (msg : String) : Option String :=
  if self.log_level.toVal ≤ LogVerbosity.WARNING.toVal then
    some ("W:" ++ self.context ++ ":" ++ NTLogger.planify msg)
  else none

/-! ## get_logger -/

/-- The two module-level queues of `jina/logging/queue.py`. -/
inductive QueueId where
  | logQueue
  | profileQueue
deriving DecidableEq, Repr

/-- The stream a `StreamHandler` writes to. -/
inductive StreamTarget where
  | stdout
  | stderr
deriving DecidableEq, Repr

/-- The formatter attached to a handler, with its template string. -/
inductive FormatterSpec where
  | color (fmt : String)
  | plain (fmt : String)
  | json (fmt : String)
  | profile (fmt : String)
deriving DecidableEq, Repr

/-- The kind of sink a handler delivers to. -/
inductive SinkKind where
  | stream (target : StreamTarget)
  | file (path : String) (delay : Bool)
  | queue (q : QueueId)
  | event
deriving DecidableEq, Repr

/-- A configured handler: sink, formatter, and the level set via `setLevel`
(`none` when `setLevel` was never called). -/
structure Handler where
  kind : SinkKind
  formatter : Option FormatterSpec := none
  level : Option Nat := none
deriving DecidableEq, Repr

/-- A `logging.Logger`, as far as `get_logger` touches it. -/
structure Logger where
  level : Option Nat := none
  propagate : Bool := true
  handlers : List Handler := []
deriving DecidableEq, Repr

/-- The process-wide `logging` state: the root logger's handlers and the
registry of named loggers. -/
structure LoggingState where
  rootHandlers : List Handler := []
  loggers : List (String × Logger) := []
deriving DecidableEq, Repr

/-- The ambient configuration `get_logger` reads: `os.name`, the two
environment variables, and the process start stamp `__uptime__` (from the
package root, not among the sources; it only feeds the file names). -/
structure Env where
  osname : String
  jinaVerbosity : Option String := none
  jinaLogFormat : Option String := none
  uptime : String := ""
deriving DecidableEq, Repr

/-- `logging.getLogger(context)`: the registered logger, or a fresh one. -/
def LoggingState.getLoggerObj (st : LoggingState) (context : String) : Logger :=
  (st.loggers.lookup context).getD {}

/-- Register (or replace) the logger bound to `context`. -/
def LoggingState.setLogger (st : LoggingState) (context : String) (l : Logger) : LoggingState :=
  if (st.loggers.lookup context).isSome then
    { st with loggers := st.loggers.map (fun p => if p.1 = context then (context, l) else p) }
  else { st with loggers := st.loggers ++ [(context, l)] }

/-- The default template `f'\x7bcontext[:context_len]:>\x7bcontext_len\x7d\x7d@...'`:
the context truncated to `context_len` characters and right-aligned in a
field of that width, followed by the fixed `%`-directives. -/
def defaultFmtStr (context : String) (context_len : Nat) : String :=
  let c := String.mk (context.toList.take context_len)
  String.mk (List.replicate (context_len - c.length) (Char.ofNat 32)) ++ c ++
    "@%(process)2d[%(levelname).1s][%(filename).3s:%(funcName).3s:%(lineno)3d]:%(message)s"

/-- The handler list `get_logger` attaches to a fresh logger, in source
order: the optional event handler, then either the profiling pair or the
console/queue/file group. -/
def assembleSinks (fmt timed : String) (vval : Nat) (uptime : String)
    (logFormat : Option String) (log_event profiling sse : Bool) : List Handler :=
  let hs : List Handler := []
  let hs := if log_event then hs ++ [⟨.event, some (.color fmt), some vval⟩] else hs
  if profiling then
    let hs := hs ++ [⟨.file ("jina-profile-" ++ uptime ++ ".json") true, some (.profile timed), none⟩]
    if sse then hs ++ [⟨.queue .profileQueue, some (.json timed), some vval⟩] else hs
  else
    let hs := if sse then hs ++ [⟨.queue .logQueue, some (.json timed), some vval⟩] else hs
    let hs := hs ++ [⟨.stream .stdout, some (.color fmt), some vval⟩]
    if logFormat = some "TXT" then
      hs ++ [⟨.file ("jina-" ++ uptime ++ ".log") true, some (.plain timed), none⟩]
    else if logFormat = some "JSON" then
      hs ++ [⟨.file ("jina-" ++ uptime ++ ".json") true, some (.json timed), none⟩]
    else hs

/-- What `get_logger` returns: the `NTLogger` on Windows, else the named
`logging.Logger` (identified by its registry name). -/
inductive JinaLogger where
  | nt (l : NTLogger)
  | std (context : String)
deriving DecidableEq, Repr

/-- The template actually used: `if not fmt_str` (absent or empty) the
default template is built from the context, else the caller's string. -/
def resolvedFmt (context : String) (context_len : Nat) : Option String → String
  | none => defaultFmtStr context context_len
  | some s => if s = "" then defaultFmtStr context context_len else s

/-- The state of the named logger after the non-Windows path of `get_logger`:
`logger.propagate = False` always; when the logger has no handlers yet, its
level is set to the resolved verbosity and the sinks of `assembleSinks` are
attached (the timed template prefixes `%(asctime)s:`); otherwise the logger
is returned with its handlers untouched. -/
def registeredLogger (env : Env) (st : LoggingState) (context : String) (context_len : Nat)
    (profiling sse : Bool) (fmt_str : Option String) (log_event : Bool) (v : LogVerbosity) :
    Logger :=
  if (({ st with rootHandlers := [] } : LoggingState).getLoggerObj context).handlers.isEmpty then
    { ({ st with rootHandlers := [] } : LoggingState).getLoggerObj context with
      propagate := false, level := some v.toVal,
      handlers := assembleSinks (resolvedFmt context context_len fmt_str)
        ("%(asctime)s:" ++ resolvedFmt context context_len fmt_str) v.toVal env.uptime
        env.jinaLogFormat log_event profiling sse }
  else { ({ st with rootHandlers := [] } : LoggingState).getLoggerObj context with
    propagate := false }

/-- `get_logger`: resolve the template and the verbosity (raising on an
unknown `JINA_VERBOSITY`), short-circuit to `NTLogger` on Windows; otherwise
clear the root logger's handlers and register the logger described by
`registeredLogger` under the context name. -/
def get_logger (env : Env) (st : LoggingState) (context : String) (context_len : Nat)
    (profiling sse : Bool) (fmt_str : Option String) (log_event : Bool) :
    Except PyError (JinaLogger × LoggingState) :=
  match LogVerbosity.from_string (env.jinaVerbosity.getD "INFO") with
  | .error e => .error e
  | .ok verbose_level =>
    if env.osname = "nt" then
      .ok (.nt (NTLogger.make context verbose_level), st)
    else
      .ok (.std context,
        ({ st with rootHandlers := [] } : LoggingState).setLogger context
          (registeredLogger env st context context_len profiling sse fmt_str log_event
            verbose_level))

end JinaLog

namespace JinaLog

/-! ## Helper lemmas on dict keys and sorting -/

theorem keys_map_set (d : Dict) (k : String) (v : JVal) :
    (d.map (fun p => if p.1 = k then (k, v) else p)).map Prod.fst = d.map Prod.fst := by
  induction d with
  | nil => rfl
  | cons p ps ih =>
    simp only [List.map_cons, List.cons.injEq]
    refine ⟨?_, ih⟩
    by_cases h : p.1 = k
    · simp [h]
    · simp [h]

theorem mem_keys_dictSet {d : Dict} {k a : String} {v : JVal} :
    a ∈ (dictSet d k v).map Prod.fst ↔ a ∈ d.map Prod.fst ∨ a = k := by
  unfold dictSet
  by_cases h : d.any (fun p => p.1 == k)
  · rw [if_pos h, keys_map_set]
    constructor
    · exact Or.inl
    · rintro (ha | rfl)
      · exact ha
      · simp only [List.any_eq_true, beq_iff_eq] at h
        obtain ⟨p, hp, hpk⟩ := h
        exact List.mem_map.mpr ⟨p, hp, hpk⟩
  · rw [if_neg h]
    simp

theorem mem_keys_dictUpdate {d kvs : Dict} {a : String}
    (h : a ∈ d.map Prod.fst ∨ a ∈ kvs.map Prod.fst) :
    a ∈ (dictUpdate d kvs).map Prod.fst := by
  induction kvs generalizing d with
  | nil =>
    rcases h with h | h
    · exact h
    · simp at h
  | cons p ps ih =>
    have hstep : dictUpdate d (p :: ps) = dictUpdate (dictSet d p.1 p.2) ps := rfl
    rw [hstep]
    rcases h with h | h
    · exact ih (Or.inl (mem_keys_dictSet.mpr (Or.inl h)))
    · simp only [List.map_cons, List.mem_cons] at h
      rcases h with rfl | h
      · exact ih (Or.inl (mem_keys_dictSet.mpr (Or.inr rfl)))
      · exact ih (Or.inr h)

theorem mem_keys_sortByKey {d : Dict} {a : String} :
    a ∈ (sortByKey d).map Prod.fst ↔ a ∈ d.map Prod.fst :=
  ((List.perm_insertionSort keyLE d).map Prod.fst).mem_iff

theorem sorted_sortByKey (d : Dict) : List.Sorted keyLE (sortByKey d) :=
  List.sorted_insertionSort keyLE d

end JinaLog

namespace JinaLog

/-! ## Concrete fixtures used by witnesses and counterexamples -/

/-- A concrete record with a string message. -/
def rec0 : LogRecord :=
  { name := "jina", msg := .ofStr "hi", levelname := "INFO", levelno := 20,
    pathname := "p", filename := "f", module := "m", lineno := 1, funcName := "g",
    created := 0, process := 0, thread := 0 }

/-- A concrete record whose message is the dict object at store address 0. -/
def recD : LogRecord := { rec0 with msg := .ofDict 0 }

/-- A concrete template for witnesses. -/
def tmpl0 : Tmpl := fun _ r => r.levelname

/-- The message of the spec's ANSI-stripping test. -/
def escHello : String := escStr ++ "[31mhello" ++ escStr ++ "[0m"

/-! ## Claim theorems -/

/-- C6: for every record, the JSON formatter's output object has exactly the
eleven keys `created, filename, funcName, levelname, lineno, module, msg,
name, pathname, process, thread`, in sorted (alphabetical) order. -/
theorem jsonFormatter_fixed_sorted_keys (st : Store) (rec : LogRecord) :
    (JsonFormatter.entries st rec).map Prod.fst =
      ["created", "filename", "funcName", "levelname", "lineno", "module",
       "msg", "name", "pathname", "process", "thread"]
    ∧ List.Sorted keyLE (JsonFormatter.entries st rec) :=
  ⟨rfl, List.sorted_insertionSort keyLE _⟩

/-- C7: both the plain and the JSON formatter remove the ANSI CSI sequences
from the message `"\u001b[31mhello\u001b[0m"`: the plain formatter hands the
template a record whose message is `"hello"`, and the JSON formatter's `msg`
field is `"hello"`. -/
theorem ansi_csi_stripped_in_plain_and_json (tmpl : Tmpl) (st : Store) (rec : LogRecord) :
    PlainFormatter.format tmpl st { rec with msg := .ofStr escHello } =
      (tmpl st { rec with msg := .ofStr "hello" }, st)
    ∧ (JsonFormatter.entries st { rec with msg := .ofStr escHello }).lookup "msg" =
        some (.str "hello") :=
  ⟨rfl, rfl⟩

/-- C8: `NTLogger` strips ANSI CSI sequences from its context at
construction, and each level method writes `<LevelInitial>:<context>:<msg>`
(with ANSI stripped from the message) exactly when its threshold permits
that level, else writes nothing. -/
theorem ntLogger_output_contract (ctx : String) (lvl : LogVerbosity) (msg : String) :
    (NTLogger.make ctx lvl).context = stripAnsi ctx
    ∧ (NTLogger.make ctx lvl).debug msg =
        (if lvl.toVal ≤ LogVerbosity.DEBUG.toVal
          then some ("D:" ++ stripAnsi ctx ++ ":" ++ stripAnsi msg) else none)
    ∧ (NTLogger.make ctx lvl).info msg =
        (if lvl.toVal ≤ LogVerbosity.INFO.toVal
          then some ("I:" ++ stripAnsi ctx ++ ":" ++ stripAnsi msg) else none)
    ∧ (NTLogger.make ctx lvl).warning msg =
        (if lvl.toVal ≤ LogVerbosity.WARNING.toVal
          then some ("W:" ++ stripAnsi ctx ++ ":" ++ stripAnsi msg) else none)
    ∧ (NTLogger.make ctx lvl).error msg =
        (if lvl.toVal ≤ LogVerbosity.ERROR.toVal
          then some ("E:" ++ stripAnsi ctx ++ ":" ++ stripAnsi msg) else none)
    ∧ (NTLogger.make ctx lvl).critical msg =
        (if lvl.toVal ≤ LogVerbosity.CRITICAL.toVal
          then some ("C:" ++ stripAnsi ctx ++ ":" ++ stripAnsi msg) else none) :=
  ⟨rfl, rfl, rfl, rfl, rfl, rfl⟩

/-- C10: for a record whose message is not a string (a mapping), the plain
formatter applies the template to the record unchanged — no stripping, no
coercion — while the JSON formatter's `msg` field is the ANSI-stripped
string coercion of the message. -/
theorem plainFormatter_nonstring_passthrough (tmpl : Tmpl) (st : Store) (rec : LogRecord)
    (a : Nat) (h : rec.msg = .ofDict a) :
    PlainFormatter.format tmpl st rec = (tmpl st rec, st)
    ∧ (JsonFormatter.entries st rec).lookup "msg" =
        some (.str (stripAnsi (pyStr st rec.msg))) := by
  refine ⟨?_, rfl⟩
  simp [PlainFormatter.format, h]

/-- Witness for C10 at a concrete record, template and store. -/
theorem plainFormatter_nonstring_passthrough_witness :
    recD.msg = .ofDict 0
    ∧ (PlainFormatter.format tmpl0 [[]] recD = (tmpl0 [[]] recD, [[]])
        ∧ (JsonFormatter.entries [[]] recD).lookup "msg" =
            some (.str (stripAnsi (pyStr [[]] recD.msg)))) :=
  ⟨rfl, plainFormatter_nonstring_passthrough tmpl0 [[]] recD 0 rfl⟩

end JinaLog

namespace JinaLog

/-- C1: the code violates the no-mutation contract.  `copy.copy(record)` is a
shallow copy, so for a record whose message is a mapping, `cr.msg` is the
same dict object as `record.msg`, and `cr.msg.update(...)` followed by
`cr.msg['memory'] = ...` mutates the original record's message mapping in
place.  Evaluated at a record whose message is the empty dict at store
address 0 (memory sample 0): after formatting, the dict object the original
record's `msg` still points to holds the seven merged profile keys instead
of being empty. -/
theorem profileFormatter_mutates_shared_mapping :
    recD.msg = .ofDict 0
    ∧ ProfileFormatter.run [([] : Dict)] recD 0 =
        .ok ([("created", .num 0), ("memory", .num 0), ("module", .str "m"),
              ("name", .str "jina"), ("pathname", .str "p"), ("process", .num 0),
              ("thread", .num 0)],
             [[("created", .num 0), ("module", .str "m"), ("name", .str "jina"),
               ("pathname", .str "p"), ("process", .num 0), ("thread", .num 0),
               ("memory", .num 0)]])
    ∧ storeGet [[("created", .num 0), ("module", .str "m"), ("name", .str "jina"),
          ("pathname", .str "p"), ("process", .num 0), ("thread", .num 0),
          ("memory", .num 0)]] 0 ≠ storeGet [([] : Dict)] 0 :=
  ⟨rfl, rfl, by decide⟩

/-- C2 counterexample: with record level DEBUG and configured threshold
CRITICAL we have level ≤ threshold, so the claim predicts the record passes;
but neither the `NTLogger.debug` gate nor the `EventHandler.emit` gate lets
it through. -/
theorem level_le_threshold_gate_refuted :
    LogVerbosity.DEBUG.toVal ≤ LogVerbosity.CRITICAL.toVal
    ∧ (NTLogger.make "ctx" .CRITICAL).debug "m" = none
    ∧ (EventHandler.emit ⟨LogVerbosity.CRITICAL.toVal, ⟨none, false⟩⟩ (fun _ => "")
         { rec0 with levelno := LogVerbosity.DEBUG.toVal }).event.isSet = false :=
  ⟨by decide, rfl, rfl⟩

/-- C2 (amended): the verbosity values are totally ordered
DEBUG < INFO < WARNING < ERROR < CRITICAL, and a record passes the
`EventHandler.emit` gate and the `NTLogger` per-level write gates exactly
when threshold ≤ level (the record's level is at least the configured
threshold). -/
theorem levelGate_passes_iff_threshold_le_level (thr rl : LogVerbosity)
    (fmt : LogRecord → String) (rec : LogRecord) (ctx msg : String) :
    (LogVerbosity.DEBUG.toVal < LogVerbosity.INFO.toVal
      ∧ LogVerbosity.INFO.toVal < LogVerbosity.WARNING.toVal
      ∧ LogVerbosity.WARNING.toVal < LogVerbosity.ERROR.toVal
      ∧ LogVerbosity.ERROR.toVal < LogVerbosity.CRITICAL.toVal)
    ∧ ((EventHandler.emit ⟨thr.toVal, ⟨none, false⟩⟩ fmt
          { rec with levelno := rl.toVal }).event.isSet = true ↔ thr.toVal ≤ rl.toVal)
    ∧ (((NTLogger.make ctx thr).debug msg).isSome ↔ thr.toVal ≤ LogVerbosity.DEBUG.toVal)
    ∧ (((NTLogger.make ctx thr).info msg).isSome ↔ thr.toVal ≤ LogVerbosity.INFO.toVal)
    ∧ (((NTLogger.make ctx thr).warning msg).isSome ↔ thr.toVal ≤ LogVerbosity.WARNING.toVal)
    ∧ (((NTLogger.make ctx thr).error msg).isSome ↔ thr.toVal ≤ LogVerbosity.ERROR.toVal)
    ∧ (((NTLogger.make ctx thr).critical msg).isSome ↔ thr.toVal ≤ LogVerbosity.CRITICAL.toVal) := by
  refine ⟨by decide, ?_, ?_, ?_, ?_, ?_, ?_⟩
  · unfold EventHandler.emit
    split
    · next h => simpa using h
    · next h => simpa using h
  all_goals
    simp only [NTLogger.make, NTLogger.debug, NTLogger.info, NTLogger.warning, NTLogger.error,
      NTLogger.critical]
    split
    · next h => simpa using h
    · next h => simpa using h

end JinaLog

namespace JinaLog

/-- The output object of a successful formatting run (the empty dict on an
error, never consulted in that case). -/
def okDict : Except PyError (Dict × Store) → Dict
  | .ok (d, _) => d
  | .error _ => []

/-- C3: `ProfileFormatter.format` raises `TypeError` exactly when the
record's message is not a mapping; when the message is a mapping, the
serialised JSON object has sorted keys and contains every key of the
original mapping together with `created, module, name, pathname, process,
thread, memory`. -/
theorem profileFormatter_type_contract (st : Store) (rec : LogRecord) (mem : Int) :
    (ProfileFormatter.run st rec mem =
        .error (.typeError "profile logger only accepts dict") ↔ ∀ a, rec.msg ≠ .ofDict a)
    ∧ ∀ a, rec.msg = .ofDict a →
        List.Sorted keyLE (okDict (ProfileFormatter.run st rec mem))
        ∧ (storeGet st a).map Prod.fst ⊆ (okDict (ProfileFormatter.run st rec mem)).map Prod.fst
        ∧ (["created", "module", "name", "pathname", "process", "thread", "memory"] : List String)
            ⊆ (okDict (ProfileFormatter.run st rec mem)).map Prod.fst := by
  constructor
  · cases hm : rec.msg with
    | ofStr s => simp [ProfileFormatter.run, hm]
    | ofDict a => simp [ProfileFormatter.run, hm]
  · intro a ha
    have hrun : ProfileFormatter.run st rec mem =
        .ok (sortByKey (dictSet (dictUpdate (storeGet st a) (ProfileFormatter.profileAttrs rec))
              "memory" (.num mem)),
            storeSet st a (dictSet (dictUpdate (storeGet st a)
              (ProfileFormatter.profileAttrs rec)) "memory" (.num mem))) := by
      simp [ProfileFormatter.run, ha]
    rw [hrun]
    refine ⟨sorted_sortByKey _, ?_, ?_⟩
    · intro k hk
      exact mem_keys_sortByKey.mpr
        (mem_keys_dictSet.mpr (Or.inl (mem_keys_dictUpdate (Or.inl hk))))
    · have hattrs : (ProfileFormatter.profileAttrs rec).map Prod.fst =
          ["created", "module", "name", "pathname", "process", "thread"] := rfl
      intro k hk
      have hmem : k ∈ (ProfileFormatter.profileAttrs rec).map Prod.fst ∨ k = "memory" := by
        rw [hattrs]
        simp only [List.mem_cons, List.not_mem_nil, or_false] at hk
        rcases hk with rfl | rfl | rfl | rfl | rfl | rfl | rfl <;> simp
      rcases hmem with hmem | rfl
      · exact mem_keys_sortByKey.mpr (mem_keys_dictSet.mpr (Or.inl
          (mem_keys_dictUpdate (Or.inr hmem))))
      · exact mem_keys_sortByKey.mpr (mem_keys_dictSet.mpr (Or.inr rfl))

/-- Witness for C3 at a concrete record with a mapping message: the
hypothesis `recD.msg = .ofDict 0` holds and the sorted-superset conclusion
follows. -/
theorem profileFormatter_type_contract_witness :
    recD.msg = .ofDict 0
    ∧ (List.Sorted keyLE (okDict (ProfileFormatter.run [([] : Dict)] recD 0))
        ∧ (storeGet [([] : Dict)] 0).map Prod.fst ⊆
            (okDict (ProfileFormatter.run [([] : Dict)] recD 0)).map Prod.fst
        ∧ (["created", "module", "name", "pathname", "process", "thread", "memory"] : List String)
            ⊆ (okDict (ProfileFormatter.run [([] : Dict)] recD 0)).map Prod.fst) :=
  ⟨rfl, (profileFormatter_type_contract [([] : Dict)] recD 0).2 0 rfl⟩

end JinaLog

namespace JinaLog

/-! ## Helper lemmas about the logging state -/

theorem lookup_replace (ls : List (String × Logger)) (ctx : String) (l : Logger)
    (h : (ls.lookup ctx).isSome) :
    (ls.map (fun p => if p.1 = ctx then (ctx, l) else p)).lookup ctx = some l := by
  induction ls with
  | nil => simp [List.lookup] at h
  | cons p ps ih =>
    simp only [List.map_cons]
    by_cases hp : p.1 = ctx
    · rw [if_pos hp]
      simp [List.lookup]
    · rw [if_neg hp]
      have hne : (ctx == p.1) = false := by
        simp only [beq_eq_false_iff_ne, ne_eq]
        exact fun he => hp he.symm
      have h2 : (ps.lookup ctx).isSome := by
        simpa [List.lookup, hne] using h
      simp [List.lookup, hne, ih h2]

theorem lookup_appended (ls : List (String × Logger)) (ctx : String) (l : Logger)
    (h : ls.lookup ctx = none) :
    (ls ++ [(ctx, l)]).lookup ctx = some l := by
  induction ls with
  | nil => simp [List.lookup]
  | cons p ps ih =>
    by_cases hp : ctx = p.1
    · simp [List.lookup, hp] at h
    · have hne : (ctx == p.1) = false := by simp [beq_iff_eq, hp]
      have h2 : ps.lookup ctx = none := by simpa [List.lookup, hne] using h
      simpa [List.lookup, hne] using ih h2

/-- After `setLogger`, looking the context up yields the stored logger. -/
theorem lookup_setLogger (st : LoggingState) (ctx : String) (l : Logger) :
    (st.setLogger ctx l).loggers.lookup ctx = some l := by
  unfold LoggingState.setLogger
  by_cases h : (st.loggers.lookup ctx).isSome
  · rw [if_pos h]
    exact lookup_replace st.loggers ctx l h
  · rw [if_neg h]
    exact lookup_appended st.loggers ctx l (Option.not_isSome_iff_eq_none.mp h)

/-- `setLogger` only touches the registry, never the root logger. -/
theorem rootHandlers_setLogger (st : LoggingState) (ctx : String) (l : Logger) :
    (st.setLogger ctx l).rootHandlers = st.rootHandlers := by
  unfold LoggingState.setLogger
  split <;> rfl

/-- `get_logger` always attaches at least one sink on the non-Windows path:
the profiling branch attaches the profile file sink, the other branch the
standard-output sink. -/
theorem assembleSinks_ne_nil (fmt timed : String) (vval : Nat) (uptime : String)
    (logFormat : Option String) (log_event profiling sse : Bool) :
    assembleSinks fmt timed vval uptime logFormat log_event profiling sse ≠ [] := by
  unfold assembleSinks
  cases log_event <;> cases profiling <;> cases sse <;> (repeat' split) <;> simp

end JinaLog

namespace JinaLog

/-- The registered logger for a context after a successful `get_logger` call. -/
def loggerFor (r : Except PyError (JinaLogger × LoggingState)) (context : String) :
    Option Logger :=
  match r with
  | .ok (_, st) => st.loggers.lookup context
  | .error _ => none

/-- On a successful non-Windows invocation, `get_logger` clears the root
handlers and registers `registeredLogger` under the context name. -/
theorem get_logger_ok (env : Env) (st : LoggingState) (context : String) (context_len : Nat)
    (profiling sse : Bool) (fmt_str : Option String) (log_event : Bool) (v : LogVerbosity)
    (hv : LogVerbosity.from_string (env.jinaVerbosity.getD "INFO") = .ok v)
    (hos : env.osname ≠ "nt") :
    get_logger env st context context_len profiling sse fmt_str log_event =
      .ok (.std context,
        ({ st with rootHandlers := [] } : LoggingState).setLogger context
          (registeredLogger env st context context_len profiling sse fmt_str log_event v)) := by
  unfold get_logger
  rw [hv]
  exact if_neg hos

/-- With no handlers registered yet, the logger is fully rebuilt. -/
theorem registeredLogger_of_empty (env : Env) (st : LoggingState) (context : String)
    (context_len : Nat) (profiling sse : Bool) (fmt_str : Option String) (log_event : Bool)
    (v : LogVerbosity)
    (hempty : (({ st with rootHandlers := [] } : LoggingState).getLoggerObj context).handlers
      = []) :
    registeredLogger env st context context_len profiling sse fmt_str log_event v =
      { level := some v.toVal, propagate := false,
        handlers := assembleSinks (resolvedFmt context context_len fmt_str)
          ("%(asctime)s:" ++ resolvedFmt context context_len fmt_str) v.toVal env.uptime
          env.jinaLogFormat log_event profiling sse } := by
  unfold registeredLogger
  rw [hempty]
  rfl

/-- With a logger already carrying handlers, only propagation is disabled. -/
theorem registeredLogger_of_nonempty (env : Env) (st : LoggingState) (context : String)
    (context_len : Nat) (profiling sse : Bool) (fmt_str : Option String) (log_event : Bool)
    (v : LogVerbosity) (l : Logger)
    (hl : st.loggers.lookup context = some l) (hne : l.handlers ≠ []) :
    registeredLogger env st context context_len profiling sse fmt_str log_event v =
      { l with propagate := false } := by
  have hG : ({ st with rootHandlers := [] } : LoggingState).getLoggerObj context = l := by
    unfold LoggingState.getLoggerObj
    show (st.loggers.lookup context).getD {} = l
    rw [hl]
    rfl
  have hieF : l.handlers.isEmpty = false := by
    cases hli : l.handlers with
    | nil => exact absurd hli hne
    | cons a as => rfl
  unfold registeredLogger
  rw [hG, hieF]
  rfl

/-- The registered logger always carries at least one handler. -/
theorem registeredLogger_handlers_ne_nil (env : Env) (st : LoggingState) (context : String)
    (context_len : Nat) (profiling sse : Bool) (fmt_str : Option String) (log_event : Bool)
    (v : LogVerbosity) :
    (registeredLogger env st context context_len profiling sse fmt_str log_event v).handlers
      ≠ [] := by
  unfold registeredLogger
  generalize ({ st with rootHandlers := [] } : LoggingState).getLoggerObj context = G
  split
  · exact assembleSinks_ne_nil _ _ _ _ _ _ _ _
  · next h =>
    intro hnil
    exact h (by simpa using congrArg List.isEmpty hnil)

/-- C4: with `JINA_LOG_FORMAT=JSON`, `profiling=False`, `sse=False`, no
event-signal object and no logger with sinks registered for the context, the
non-Windows path returns the named logger with exactly two sinks: a
standard-output stream sink with the Color formatter and a deferred-open
file sink with the JSON formatter. -/
theorem get_logger_json_format_two_sinks (env : Env) (st : LoggingState) (context : String)
    (context_len : Nat) (v : LogVerbosity)
    (hos : env.osname ≠ "nt")
    (hfmt : env.jinaLogFormat = some "JSON")
    (hv : LogVerbosity.from_string (env.jinaVerbosity.getD "INFO") = .ok v)
    (hfresh : ∀ l, st.loggers.lookup context = some l → l.handlers = []) :
    (get_logger env st context context_len false false none false).map Prod.fst =
      .ok (.std context)
    ∧ (loggerFor (get_logger env st context context_len false false none false) context).map
        Logger.handlers =
      some [⟨.stream .stdout, some (.color (defaultFmtStr context context_len)), some v.toVal⟩,
            ⟨.file ("jina-" ++ env.uptime ++ ".json") true,
              some (.json ("%(asctime)s:" ++ defaultFmtStr context context_len)), none⟩] := by
  have hempty : (({ st with rootHandlers := [] } : LoggingState).getLoggerObj context).handlers
      = [] := by
    unfold LoggingState.getLoggerObj
    cases hl : st.loggers.lookup context with
    | none => rfl
    | some l => exact hfresh l hl
  rw [get_logger_ok env st context context_len false false none false v hv hos,
    registeredLogger_of_empty env st context context_len false false none false v hempty, hfmt]
  exact ⟨rfl, by simp only [loggerFor, lookup_setLogger, Option.map_some]; rfl⟩
end JinaLog

namespace JinaLog

/-- The environment of the C4 witness: POSIX, `JINA_LOG_FORMAT=JSON`. -/
def env0 : Env :=
  { osname := "posix", jinaVerbosity := none, jinaLogFormat := some "JSON", uptime := "t" }

/-- An empty logging state. -/
def st0 : LoggingState := { rootHandlers := [], loggers := [] }

/-- Witness for C4 at a concrete environment and an empty registry. -/
theorem get_logger_json_format_two_sinks_witness :
    env0.osname ≠ "nt"
    ∧ ((get_logger env0 st0 "test" 10 false false none false).map Prod.fst = .ok (.std "test")
      ∧ (loggerFor (get_logger env0 st0 "test" 10 false false none false) "test").map
          Logger.handlers =
        some [⟨.stream .stdout, some (.color (defaultFmtStr "test" 10)),
                some LogVerbosity.INFO.toVal⟩,
              ⟨.file ("jina-" ++ env0.uptime ++ ".json") true,
                some (.json ("%(asctime)s:" ++ defaultFmtStr "test" 10)), none⟩]) :=
  ⟨by decide,
    get_logger_json_format_two_sinks env0 st0 "test" 10 .INFO (by decide) rfl rfl
      (fun l h => nomatch h)⟩

/-- C5: calling `get_logger` twice with the same arguments (non-Windows, no
sink reset in between) leaves the context's handler list exactly as after
the first call — the second call re-adds nothing, and the first call always
attaches at least one sink. -/
theorem get_logger_idempotent_per_context (env : Env) (st : LoggingState) (context : String)
    (context_len : Nat) (profiling sse : Bool) (fmt_str : Option String) (log_event : Bool)
    (r1 r2 : JinaLogger) (st1 st2 : LoggingState)
    (hos : env.osname ≠ "nt")
    (h1 : get_logger env st context context_len profiling sse fmt_str log_event = .ok (r1, st1))
    (h2 : get_logger env st1 context context_len profiling sse fmt_str log_event = .ok (r2, st2)) :
    (st2.loggers.lookup context).map Logger.handlers =
      (st1.loggers.lookup context).map Logger.handlers
    ∧ (st1.loggers.lookup context).map Logger.handlers ≠ some []
    ∧ (st1.loggers.lookup context).isSome = true := by
  cases hv : LogVerbosity.from_string (env.jinaVerbosity.getD "INFO") with
  | error e =>
    unfold get_logger at h1
    rw [hv] at h1
    exact nomatch h1
  | ok v =>
    rw [get_logger_ok env st context context_len profiling sse fmt_str log_event v hv hos] at h1
    rw [get_logger_ok env st1 context context_len profiling sse fmt_str log_event v hv hos] at h2
    simp only [Except.ok.injEq, Prod.mk.injEq] at h1 h2
    obtain ⟨h1a, h1b⟩ := h1
    obtain ⟨h2a, h2b⟩ := h2
    have hl1 : st1.loggers.lookup context =
        some (registeredLogger env st context context_len profiling sse fmt_str log_event v) := by
      rw [← h1b]
      exact lookup_setLogger _ _ _
    have hne1 :
        (registeredLogger env st context context_len profiling sse fmt_str log_event v).handlers
          ≠ [] :=
      registeredLogger_handlers_ne_nil env st context context_len profiling sse fmt_str
        log_event v
    have hreg2 : registeredLogger env st1 context context_len profiling sse fmt_str log_event v =
        { registeredLogger env st context context_len profiling sse fmt_str log_event v with
          propagate := false } :=
      registeredLogger_of_nonempty env st1 context context_len profiling sse fmt_str log_event v
        _ hl1 hne1
    have hl2 : st2.loggers.lookup context =
        some { registeredLogger env st context context_len profiling sse fmt_str log_event v with
          propagate := false } := by
      rw [← h2b, lookup_setLogger, hreg2]
    rw [hl1, hl2]
    refine ⟨rfl, ?_, rfl⟩
    simpa using hne1

/-- The environment of the C5 and C9 witnesses: POSIX, no format variable. -/
def env5 : Env := { osname := "posix", jinaVerbosity := none, jinaLogFormat := none, uptime := "t" }

/-- The state after the first `get_logger` call of the C5 witness. -/
def st5a : LoggingState :=
  ({ st0 with rootHandlers := [] } : LoggingState).setLogger "test"
    (registeredLogger env5 st0 "test" 10 false false none false .INFO)

/-- The state after the second `get_logger` call of the C5 witness. -/
def st5b : LoggingState :=
  ({ st5a with rootHandlers := [] } : LoggingState).setLogger "test"
    (registeredLogger env5 st5a "test" 10 false false none false .INFO)

/-- Witness for C5 at a concrete environment and an empty registry. -/
theorem get_logger_idempotent_per_context_witness :
    ((st5b.loggers.lookup "test").map Logger.handlers =
        (st5a.loggers.lookup "test").map Logger.handlers)
    ∧ (st5a.loggers.lookup "test").map Logger.handlers ≠ some []
    ∧ (st5a.loggers.lookup "test").isSome = true :=
  get_logger_idempotent_per_context env5 st0 "test" 10 false false none false
    (.std "test") (.std "test") st5a st5b (by decide) rfl rfl

/-- C9: every successful non-Windows `get_logger` invocation — also one that
returns an already-configured logger — leaves the process-wide root logger
with no handlers, detaching whatever other code had attached to it. -/
theorem get_logger_clears_root_handlers (env : Env) (st : LoggingState) (context : String)
    (context_len : Nat) (profiling sse : Bool) (fmt_str : Option String) (log_event : Bool)
    (res : JinaLogger) (st2 : LoggingState)
    (hos : env.osname ≠ "nt")
    (h : get_logger env st context context_len profiling sse fmt_str log_event = .ok (res, st2)) :
    st2.rootHandlers = [] := by
  cases hv : LogVerbosity.from_string (env.jinaVerbosity.getD "INFO") with
  | error e =>
    unfold get_logger at h
    rw [hv] at h
    exact nomatch h
  | ok v =>
    rw [get_logger_ok env st context context_len profiling sse fmt_str log_event v hv hos] at h
    simp only [Except.ok.injEq, Prod.mk.injEq] at h
    obtain ⟨ha, hb⟩ := h
    rw [← hb, rootHandlers_setLogger]

/-- A state whose root logger carries a handler attached by other code. -/
def st9 : LoggingState :=
  { rootHandlers := [⟨.stream .stderr, none, none⟩], loggers := [] }

/-- The state after the `get_logger` call of the C9 witness. -/
def st9b : LoggingState :=
  ({ st9 with rootHandlers := [] } : LoggingState).setLogger "test"
    (registeredLogger env5 st9 "test" 10 false false none false .INFO)

/-- Witness for C9: the call detaches the previously attached root handler. -/
theorem get_logger_clears_root_handlers_witness : st9b.rootHandlers = [] :=
  get_logger_clears_root_handlers env5 st9 "test" 10 false false none false
    (.std "test") st9b (by decide) rfl

end JinaLog
